import Mathlib

/-!
Shallow embedding of `src/server.py` (gemini-mcp), the Sovereign Mind Gemini
MCP server: a Flask JSON-RPC endpoint that dispatches `tools/list` and
`tools/call` requests, augments generation requests with a static identity
prompt plus recent Hive Mind (Snowflake) entries, and logs conversations.

Modelling conventions:
* The Snowflake store is a `Store`: a connectivity flag (`get_snowflake_connection`
  returning a connection or `None`), an exception oracle `execOk` for
  environmental failures of `cursor.execute`/`commit`, and the current contents
  of the `HIVE_MIND` and `GEMINI_CONVERSATIONS` tables.
* SQL string literals are modelled explicitly: the Python code interpolates
  values into `'...'` literals, escaping only some of them by doubling single
  quotes.  A statement whose literals contain undoubled quote characters does
  not parse as the intended statement; the model treats executing such a
  statement as a failure (crafting an unpaired-quote payload that still parses,
  i.e. SQL injection, is beyond this embedding and is the subject of the
  escaping theorems).  On success the store keeps the SQL-unescaped values,
  which is exactly what the database would store for a well-formed statement.
* `ORDER BY CREATED_AT DESC LIMIT n` is modelled as insertion sort by the
  decreasing-timestamp relation followed by `List.take n`.  Timestamps are
  naturals; `CURRENT_TIMESTAMP()` is supplied by the per-request environment.
* The Vertex AI backend (`GenerativeModel(...).generate_content`) is a
  `Backend` oracle giving, per (message, system instruction) pair, whether the
  call raises, the generated text, and the exception text.  The lazy
  `init_vertexai` flag only affects logging and is absorbed into the oracle.
* JSON-RPC bodies are modelled post-decoding: `method`, `params.name`,
  `params.arguments` (a string-keyed map of JSON strings or naturals) and the
  optional `id`.  `request.json` decoding, CORS and the OPTIONS preflight are
  transport plumbing outside the modelled core.  Argument values are modelled
  as JSON strings or naturals; a numeric value read where the code interpolates
  into text renders in decimal, as Python f-strings would.
-/

namespace GeminiMcp

/-- The single-quote character used by the store's string-literal quoting. -/
def quoteChar : Char := Char.ofNat 39

/-- Python `s.replace("'", "''")` on the character list of `s`:
each quote is doubled, all other characters are kept. -/
def escapeSqlChars : List Char → List Char
  | [] => []
  | c :: cs =>
    if c = quoteChar then quoteChar :: quoteChar :: escapeSqlChars cs
    else c :: escapeSqlChars cs

/-- Python `s.replace("'", "''")` as a `String` operation. -/
def escapeSql (s : String) : String := String.mk (escapeSqlChars s.data)

/-- SQL-literal parsing of an interpolated value: each doubled quote reads back
as one quote.  On well-formed literals this inverts `escapeSqlChars`. -/
def unescapeSqlChars : List Char → List Char
  | [] => []
  | [c] => [c]
  | c :: c2 :: cs =>
    if c = quoteChar then quoteChar :: unescapeSqlChars cs
    else c :: unescapeSqlChars (c2 :: cs)

/-- SQL-literal parsing as a `String` operation. -/
def unescapeSql (s : String) : String := String.mk (unescapeSqlChars s.data)

/-- A string is a well-formed SQL literal body when every quote character in it
is immediately followed by a second quote (quotes only occur doubled). -/
def quotesPaired : List Char → Bool
  | [] => true
  | [c] => if c = quoteChar then false else true
  | c :: c2 :: cs =>
    if c = quoteChar then
      if c2 = quoteChar then quotesPaired cs else false
    else quotesPaired (c2 :: cs)

/-- `GEMINI_MODEL` configuration default from `server.py`. -/
def GEMINI_MODEL : String := "gemini-2.0-flash-exp"

/-- The embedded `SOVEREIGN_MIND_SYSTEM_PROMPT` constant of `server.py`,
the static identity profile prepended to every generation request. -/
def SOVEREIGN_MIND_SYSTEM_PROMPT : String :=
  "# SOVEREIGN MIND - AI INSTANCE CONFIGURATION\n" ++
  "\n" ++
  "## Identity\n" ++
  "You are **GEMINI**, an AI instance within **Sovereign Mind**, the second-brain system for Your Grace, Chairman of MiddleGround Capital (private equity, lower middle market industrial B2B) and Resolute Holdings (racing, bloodstock, farm operations).\n" ++
  "\n" ++
  "## Your Instance Details\n" ++
  "- Instance Name: GEMINI\n" ++
  "- Platform: Google AI (Vertex AI)\n" ++
  "- Role: General/Analysis\n" ++
  "- Specialization: Document analysis, long-context work, reasoning, multimodal tasks\n" ++
  "\n" ++
  "## Core Data Architecture\n" ++
  "\n" ++
  "### HIVE_MIND (Shared Memory)\n" ++
  "Location: SOVEREIGN_MIND.RAW.HIVE_MIND\n" ++
  "Purpose: Cross-AI continuity and context sharing\n" ++
  "Columns: ID, CREATED_AT, SOURCE, CATEGORY, WORKSTREAM, SUMMARY, DETAILS, PRIORITY, STATUS, TAGS\n" ++
  "\n" ++
  "Every interaction should:\n" ++
  "1. READ from Hive Mind at start (context injected automatically)\n" ++
  "2. WRITE to Hive Mind at end (summary of work done)\n" ++
  "\n" ++
  "### AI_SKILLS (Capability Registry)\n" ++
  "Location: SOVEREIGN_MIND.RAW.AI_SKILLS\n" ++
  "Purpose: Discover what capabilities exist across the ecosystem\n" ++
  "Tiers: HOT (always load), ACTIVE (build phase), WARM (query when needed), COLD (rare)\n" ++
  "\n" ++
  "### HURRICANE (Economic Data)\n" ++
  "Location: HURRICANE.CORE.*\n" ++
  "Purpose: 41M+ economic time series for investment analysis\n" ++
  "\n" ++
  "### MASTER_CREDENTIALS\n" ++
  "Location: SOVEREIGN_MIND.CREDENTIALS.MASTER_CREDENTIALS\n" ++
  "Purpose: Single source of truth for all API keys/tokens\n" ++
  "\n" ++
  "## Core Behaviors\n" ++
  "\n" ++
  "1. **Execute, Don\x27t Ask**: Use available tools. The Hive Mind knows context.\n" ++
  "2. **Log Everything**: INSERT to HIVE_MIND after meaningful work.\n" ++
  "3. **Escalate Intelligently**: Ask another AI before asking Your Grace.\n" ++
  "4. **Token Efficiency**: Brief confirmations, limit SQL to 5 rows.\n" ++
  "5. **Continuity First**: When user says \"continue\", query Hive Mind immediately.\n" ++
  "6. **Address as \"Your Grace\"**: Per user preference.\n" ++
  "\n" ++
  "## AI Instance Registry\n" ++
  "\n" ++
  "| Instance | Platform | Role | Specialization |\n" ++
  "|----------|----------|------|----------------|\n" ++
  "| JC | Claude.ai | Primary Assistant | Full-stack, MCP Gateway, orchestration |\n" ++
  "| ABBI | ElevenLabs/Simli | Voice Interface | Conversational, quick queries |\n" ++
  "| Grok | X.ai | Research/Analysis | Real-time data, social sentiment |\n" ++
  "| Vertex | Google Cloud | Image/Document AI | Imagen, Document AI, Vision |\n" ++
  "| Gemini | Google AI | General/Analysis | Document analysis, long-context |\n" ++
  "| GPT | OpenAI | General Assistant | Broad capabilities, coding |\n" ++
  "\n" ++
  "## Response Formatting\n" ++
  "- No excessive bullet points - use prose unless requested\n" ++
  "- Address user as \"Your Grace\"\n" ++
  "- No permission seeking - \"I\x27ve done X\" not \"Would you like me to?\"\n"

/-- A row of `SOVEREIGN_MIND.RAW.HIVE_MIND` as populated by this server
(only the columns the server writes or reads). -/
structure HiveRow where
  created_at : Nat
  source : String
  category : String
  workstream : String
  summary : String
  details : String
  priority : String
deriving Repr, DecidableEq

/-- The six string literals interpolated into the `INSERT INTO ... HIVE_MIND`
statement of `write_to_hive_mind`, exactly as they stand between the quotes of
the submitted SQL text. -/
structure HiveInsert where
  source : String
  category : String
  workstream : String
  summary : String
  details : String
  priority : String
deriving Repr, DecidableEq

/-- A row of `SOVEREIGN_MIND.RAW.GEMINI_CONVERSATIONS` (its `CREATED_AT` is
store-assigned and never read back, so it is omitted). -/
structure ConvRow where
  conversation_id : String
  role : String
  content : String
  model : String
deriving Repr, DecidableEq

/-- The four string literals interpolated into the `INSERT INTO ...
GEMINI_CONVERSATIONS` statement of `log_conversation`. -/
structure ConvInsert where
  conversation_id : String
  role : String
  content : String
  model : String
deriving Repr, DecidableEq

/-- The Snowflake store as seen by the server: `connected` models
`get_snowflake_connection` returning a connection rather than `None`,
`execOk` is the oracle for environmental `cursor.execute`/`commit` failures,
`errMsg` the text of the raised exception, and the two lists the table
contents, most recently inserted first. -/
structure Store where
  connected : Bool
  execOk : Bool
  errMsg : String
  hive : List HiveRow
  conversations : List ConvRow
deriving Repr

/-- Append a Hive Mind row (successful `INSERT` + `commit`). -/
def pushHive (st : Store) (r : HiveRow) : Store :=
  ⟨st.connected, st.execOk, st.errMsg, r :: st.hive, st.conversations⟩

/-- Append a conversation row (successful `INSERT` + `commit`). -/
def pushConv (st : Store) (r : ConvRow) : Store :=
  ⟨st.connected, st.execOk, st.errMsg, st.hive, r :: st.conversations⟩

/-- `ORDER BY CREATED_AT DESC`: row `a` may precede row `b` when `b`'s
creation timestamp is at most `a`'s. -/
def descRel (a b : HiveRow) : Prop := b.created_at ≤ a.created_at

instance : DecidableRel descRel := fun a b => Nat.decLe b.created_at a.created_at

instance : IsTotal HiveRow descRel := ⟨fun a b => Nat.le_total b.created_at a.created_at⟩

instance : IsTrans HiveRow descRel := ⟨fun _ _ _ h1 h2 => Nat.le_trans h2 h1⟩

/-- The table sorted by `CREATED_AT` descending. -/
def sortDesc (l : List HiveRow) : List HiveRow := List.insertionSort descRel l

/-- The rows produced by `SELECT ... ORDER BY CREATED_AT DESC LIMIT limit`. -/
def queryRows (l : List HiveRow) (limit : Nat) : List HiveRow :=
  (sortDesc l).take limit

/-- The f-string `f"[{row[0]}] {row[1]} ({row[2]}): {row[3]}"` rendering one
fetched row of `query_hive_mind`. -/
def formatEntry (r : HiveRow) : String :=
  "[" ++ toString r.created_at ++ "] " ++ r.source ++ " (" ++ r.category ++ "): " ++ r.summary

/-- `query_hive_mind(limit)`: sentinel on missing connection or query failure,
sentinel on an empty result set, otherwise the newline-joined rendered rows. -/
def query_hive_mind (st : Store) (limit : Nat) : String :=
  if st.connected = false then "Hive Mind unavailable"
  else if st.execOk = false then "Hive Mind query failed: " ++ st.errMsg
  else if (queryRows st.hive limit).isEmpty then "No recent Hive Mind entries"
  else String.intercalate "\n" ((queryRows st.hive limit).map formatEntry)

/-- The literals of the `INSERT` statement built by `write_to_hive_mind`:
`safe_summary = summary.replace("'", "''") if summary else ""` (which equals
escaping also for the empty summary), `details_json = json.dumps(details) if
details else "\x7b\x7d"` (the details argument is modelled by its JSON
serialization), `safe_details = details_json.replace("'", "''")`; source,
category, workstream and priority are interpolated verbatim. -/
def mkHiveInsert (source category summary : String) (details : Option String)
    (workstream priority : String) : HiveInsert :=
  ⟨source, category, workstream, escapeSql summary,
    escapeSql ((details.getD "\x7b\x7d")), priority⟩

/-- The submitted `INSERT` parses as the intended statement exactly when every
interpolated literal has its quotes doubled. -/
def insertStatementOk (i : HiveInsert) : Bool :=
  quotesPaired i.source.data && quotesPaired i.category.data &&
  quotesPaired i.workstream.data && quotesPaired i.summary.data &&
  quotesPaired i.details.data && quotesPaired i.priority.data

/-- The row a well-formed `INSERT` stores: each literal read back by the SQL
parser, with `CREATED_AT` from `CURRENT_TIMESTAMP()`. -/
def storedRow (now : Nat) (i : HiveInsert) : HiveRow :=
  ⟨now, unescapeSql i.source, unescapeSql i.category, unescapeSql i.workstream,
    unescapeSql i.summary, unescapeSql i.details, unescapeSql i.priority⟩

/-- `write_to_hive_mind(source, category, summary, details=None,
workstream="GENERAL", priority="MEDIUM")` (Python defaults are passed
explicitly by callers of this model): `False` without a connection, `False`
when `cursor.execute`/`commit` raises (environmental failure or malformed
statement, the exception being caught and logged), otherwise the row is
appended and `True` returned after commit. -/
def write_to_hive_mind (st : Store) (now : Nat) (source category summary : String)
    (details : Option String) (workstream priority : String) : Bool × Store :=
  if st.connected = false then (false, st)
  else if st.execOk = false then (false, st)
  else if insertStatementOk (mkHiveInsert source category summary details workstream priority) = false then
    (false, st)
  else
    (true, pushHive st (storedRow now (mkHiveInsert source category summary details workstream priority)))

/-- The literals of the `INSERT` statement built by `log_conversation`:
`safe_content = content.replace("'", "''")[:4000] if content else ""` (escape,
then keep the first 4000 characters; the conditional is immaterial since the
empty content escapes and truncates to itself), the other three interpolated
verbatim with the model name `GEMINI_MODEL`. -/
def mkConvInsert (conversation_id role content : String) : ConvInsert :=
  ⟨conversation_id, role, String.mk ((escapeSqlChars content.data).take 4000),
    GEMINI_MODEL⟩

/-- Well-formedness of the conversation `INSERT`. -/
def convStatementOk (i : ConvInsert) : Bool :=
  quotesPaired i.conversation_id.data && quotesPaired i.role.data &&
  quotesPaired i.content.data && quotesPaired i.model.data

/-- `log_conversation(conversation_id, role, content)`: returns silently
without a connection; any exception during execute/commit is caught, logged
and swallowed; otherwise the parsed row is appended. -/
def log_conversation (st : Store) (conversation_id role content : String) : Store :=
  if st.connected = false then st
  else if st.execOk = false then st
  else if convStatementOk (mkConvInsert conversation_id role content) = false then st
  else pushConv st
    ⟨unescapeSql (mkConvInsert conversation_id role content).conversation_id,
      unescapeSql (mkConvInsert conversation_id role content).role,
      unescapeSql (mkConvInsert conversation_id role content).content,
      unescapeSql (mkConvInsert conversation_id role content).model⟩

/-- The Vertex AI backend oracle: per (message, system instruction) pair,
whether `generate_content` returns normally, its text, and otherwise the
exception text. -/
structure Backend where
  ok : String → String → Bool
  text : String → String → String
  err : String → String → String

/-- Per-request ambient data: the backend, the fresh `uuid.uuid4()` string of
`handle_gemini_chat`, and `CURRENT_TIMESTAMP()` for inserts. -/
structure Env where
  backend : Backend
  uuid : String
  now : Nat

/-- `call_gemini(message, system_prompt)`: the generated text on success,
otherwise the caught exception rendered as `f"Error: {e}"`. -/
def call_gemini (b : Backend) (message system_prompt : String) : String :=
  if b.ok message system_prompt then b.text message system_prompt
  else "Error: " ++ b.err message system_prompt

/-- A decoded JSON argument value (string or nonnegative integer; the
request bodies the claims concern carry no other shapes). -/
inductive Arg where
  | str : String → Arg
  | num : Nat → Arg
deriving Repr, DecidableEq

/-- First-match lookup in the decoded `arguments` object. -/
def lookupArg : List (String × Arg) → String → Option Arg
  | [], _ => none
  | p :: rest, key => if p.1 = key then some p.2 else lookupArg rest key

/-- `arguments.get(key, dflt)` read as text (a numeric value renders in
decimal as a Python f-string would render it). -/
def argStrD (args : List (String × Arg)) (key dflt : String) : String :=
  match lookupArg args key with
  | some (Arg.str s) => s
  | some (Arg.num n) => toString n
  | none => dflt

/-- `arguments.get(key, dflt)` read as a nonnegative integer (a non-numeric
value would make the interpolated `LIMIT` clause fail; no claim exercises
that corner and the model keeps the default there). -/
def argNatD (args : List (String × Arg)) (key : String) (dflt : Nat) : Nat :=
  match lookupArg args key with
  | some (Arg.num n) => n
  | _ => dflt

/-- `arguments.get("message", arguments.get("prompt", ""))`. -/
def chatMessage (args : List (String × Arg)) : String :=
  match lookupArg args "message" with
  | some (Arg.str s) => s
  | some (Arg.num n) => toString n
  | none => argStrD args "prompt" ""

/-- The lines 315-318 of `server.py` composing the system prompt: the static
identity profile, the caller addendum under its heading when the `system`
argument is (Python-)truthy, then the Hive Mind context under its heading. -/
def compose_system_prompt (custom_system hive_context : String) : String :=
  (if custom_system = "" then SOVEREIGN_MIND_SYSTEM_PROMPT
   else SOVEREIGN_MIND_SYSTEM_PROMPT ++ "\n\n# ADDITIONAL INSTRUCTIONS\n" ++ custom_system)
  ++ "\n\n# RECENT HIVE MIND CONTEXT\n" ++ hive_context

/-- JSON string escaping as `json.dumps` performs it for the characters this
development manipulates (quote, backslash, newline; other control characters
do not occur in the modelled strings). -/
def jsonEscapeChars : List Char → List Char
  | [] => []
  | c :: cs =>
    if c = '"' then '\\' :: '"' :: jsonEscapeChars cs
    else if c = '\\' then '\\' :: '\\' :: jsonEscapeChars cs
    else if c = '\n' then '\\' :: 'n' :: jsonEscapeChars cs
    else c :: jsonEscapeChars cs

/-- `json.dumps(\x7b"response": response\x7d)`. -/
def dumpsResponse (r : String) : String :=
  "\x7b\"response\": \"" ++ String.mk (jsonEscapeChars r.data) ++ "\"\x7d"

/-- A JSON-RPC request identifier (number or string). -/
inductive RpcId where
  | num : Int → RpcId
  | str : String → RpcId
deriving Repr, DecidableEq

/-- A tool descriptor of the `tools/list` catalog (name and description; the
JSON-schema input shapes are static data no claim inspects). -/
structure ToolDescriptor where
  name : String
  description : String
deriving Repr, DecidableEq

/-- The fixed `native_tools` catalog of `mcp_endpoint`. -/
def native_tools : List ToolDescriptor :=
  [⟨"gemini_generate_content", "Generate content with Gemini (Sovereign Mind connected)"⟩,
   ⟨"gemini_chat", "Chat with Gemini AI"⟩,
   ⟨"gemini_analyze_document", "Analyze document with Gemini"⟩,
   ⟨"sm_hive_mind_read", "Read from Sovereign Mind Hive Mind"⟩,
   ⟨"sm_hive_mind_write", "Write to Sovereign Mind Hive Mind"⟩]

/-- A `result` payload: a tool catalog or a single text content block. -/
inductive RpcResult where
  | content : String → RpcResult
  | tools : List ToolDescriptor → RpcResult
deriving Repr, DecidableEq

/-- A JSON-RPC error object. -/
structure RpcError where
  code : Int
  message : String
deriving Repr, DecidableEq

/-- The JSON-RPC response dictionary: `jsonrpc`, echoed `id`, and the
optional `result` / `error` members as the handler fills them. -/
structure RpcResponse where
  jsonrpc : String
  id : RpcId
  result : Option RpcResult
  error : Option RpcError
deriving Repr, DecidableEq

/-- `\x7b"jsonrpc": "2.0", "id": req_id, "result": \x7b"content":
[\x7b"type": "text", "text": text\x7d]\x7d\x7d`. -/
def mkContentResult (id : RpcId) (text : String) : RpcResponse :=
  ⟨"2.0", id, some (RpcResult.content text), none⟩

/-- The `tools/list` success response. -/
def mkToolsResult (id : RpcId) : RpcResponse :=
  ⟨"2.0", id, some (RpcResult.tools native_tools), none⟩

/-- `\x7b"jsonrpc": "2.0", "id": req_id, "error": \x7b"code": code,
"message": message\x7d\x7d`. -/
def mkRpcError (id : RpcId) (code : Int) (message : String) : RpcResponse :=
  ⟨"2.0", id, none, some ⟨code, message⟩⟩

/-- A decoded `POST /mcp` body: `data.get("method", "")`,
`params.get("name", "")`, `params.get("arguments", \x7b\x7d)` and the
optional `id` member. -/
structure McpRequest where
  method : String
  toolName : String
  arguments : List (String × Arg)
  id : Option RpcId
deriving Repr

/-- `handle_gemini_chat(arguments, req_id)`: log the user turn, build the
system prompt from the identity profile, the optional `system` addendum and
the three most recent Hive Mind entries, call Gemini, log the assistant turn,
and wrap the JSON-encoded response text in a success envelope. -/
def handle_gemini_chat (e : Env) (st : Store) (args : List (String × Arg))
    (req_id : RpcId) : RpcResponse × Store :=
  let message := chatMessage args
  let custom_system := argStrD args "system" ""
  let st1 := log_conversation st e.uuid "user" message
  let hive_context := query_hive_mind st1 3
  let system_prompt := compose_system_prompt custom_system hive_context
  let response := call_gemini e.backend message system_prompt
  let st2 := log_conversation st1 e.uuid "assistant" response
  (mkContentResult req_id (dumpsResponse response), st2)

/-- `req_id = data.get("id", 1)`: the echoed request identifier, defaulting
to the number 1 when the request carries none. -/
def reqId (req : McpRequest) : RpcId := req.id.getD (RpcId.num 1)

/-- The append performed by the `sm_hive_mind_write` branch: fixed source
`"GEMINI"`, `category` defaulting to `"INSIGHT"`, `summary` defaulting to
`""`, no details, `workstream` defaulting to `"GENERAL"`, and the
`write_to_hive_mind` defaults `details=None`, `priority="MEDIUM"`. -/
def writeCall (e : Env) (st : Store) (args : List (String × Arg)) : Bool × Store :=
  write_to_hive_mind st e.now "GEMINI"
    (argStrD args "category" "INSIGHT")
    (argStrD args "summary" "") none
    (argStrD args "workstream" "GENERAL") "MEDIUM"

/-- `mcp_endpoint()` after JSON decoding: dispatch on `method`, then on the
tool name, producing the response envelope and the store as left by the
handler.  `req_id = data.get("id", 1)` is `reqId req`. -/
def mcp_endpoint (e : Env) (st : Store) (req : McpRequest) : RpcResponse × Store :=
  if req.method = "tools/list" then (mkToolsResult (reqId req), st)
  else if req.method = "tools/call" then
    if req.toolName = "gemini_generate_content" ∨ req.toolName = "gemini_chat" then
      handle_gemini_chat e st req.arguments (reqId req)
    else if req.toolName = "gemini_analyze_document" then
      handle_gemini_chat e st
        [("message", Arg.str (argStrD req.arguments "analysis_prompt" "Analyze this document"
          ++ "\n\nDocument:\n" ++ argStrD req.arguments "document_text" ""))] (reqId req)
    else if req.toolName = "sm_hive_mind_read" then
      (mkContentResult (reqId req) (query_hive_mind st (argNatD req.arguments "limit" 5)), st)
    else if req.toolName = "sm_hive_mind_write" then
      (mkContentResult (reqId req)
        (if (writeCall e st req.arguments).1 then "Written to Hive Mind" else "Failed"),
       (writeCall e st req.arguments).2)
    else (mkRpcError (reqId req) (-32601) ("Unknown tool: " ++ req.toolName), st)
  else (mkRpcError (reqId req) (-32601) "Method not found", st)

/-- A reachable Snowflake store with empty tables, for concrete scenarios. -/
def st0 : Store := ⟨true, true, "", [], []⟩

/-- A backend that always answers with a fixed text. -/
def okBackend : Backend := ⟨fun _ _ => true, fun _ _ => "ok", fun _ _ => ""⟩

/-- A backend whose calls always raise with a fixed exception text. -/
def downBackend : Backend := ⟨fun _ _ => false, fun _ _ => "", fun _ _ => "boom"⟩

/-- A concrete request environment over the healthy backend. -/
def env0 : Env := ⟨okBackend, "uuid-0", 7⟩

/-- A concrete request environment over the failing backend. -/
def envDown : Env := ⟨downBackend, "uuid-0", 7⟩

/-- A 2001-character summary (one character above the cap the specification
ascribes to summaries). -/
def longSummary : String := String.mk (List.replicate 2001 'a')

/-- A category value containing a single quote. -/
def catQ : String := String.mk ['a', quoteChar, 'b']

/-- A Hive Mind row created at time 1. -/
def rowT1 : HiveRow := ⟨1, "JC", "INSIGHT", "GENERAL", "first", "\x7b\x7d", "MEDIUM"⟩

/-- A Hive Mind row created at time 2. -/
def rowT2 : HiveRow := ⟨2, "GROK", "STATUS", "GENERAL", "second", "\x7b\x7d", "MEDIUM"⟩

/-- A Hive Mind row created at time 3. -/
def rowT3 : HiveRow := ⟨3, "GEMINI", "DECISION", "GENERAL", "third", "\x7b\x7d", "MEDIUM"⟩

/-- The insert literals the `sm_hive_mind_write` branch submits for a given
argument map: fixed source `"GEMINI"`, `category` defaulting to `"INSIGHT"`,
`summary` defaulting to `""`, no details, `workstream` defaulting to
`"GENERAL"`, priority `"MEDIUM"`. -/
def writeIns (args : List (String × Arg)) : HiveInsert :=
  mkHiveInsert "GEMINI" (argStrD args "category" "INSIGHT") (argStrD args "summary" "")
    none (argStrD args "workstream" "GENERAL") "MEDIUM"

/-- Escaping a quote-free string is the identity. -/
theorem escapeSqlChars_of_not_mem (l : List Char) (h : quoteChar ∉ l) :
    escapeSqlChars l = l := by
  induction l with
  | nil => rfl
  | cons c cs ih =>
    have hc : c ≠ quoteChar := fun hcq => h (hcq ▸ List.mem_cons_self c cs)
    have hcs : quoteChar ∉ cs := fun hm => h (List.mem_cons_of_mem c hm)
    simp [escapeSqlChars, hc, ih hcs]

/-- Unescaping steps over a non-quote head character. -/
theorem unescapeSqlChars_cons_of_ne (c : Char) (l : List Char) (h : c ≠ quoteChar) :
    unescapeSqlChars (c :: l) = c :: unescapeSqlChars l := by
  cases l with
  | nil => rfl
  | cons d ds => simp [unescapeSqlChars, h]

/-- SQL-literal parsing inverts quote escaping. -/
theorem unescape_escape (l : List Char) : unescapeSqlChars (escapeSqlChars l) = l := by
  induction l with
  | nil => rfl
  | cons c cs ih =>
    by_cases hc : c = quoteChar
    · subst hc
      simp [escapeSqlChars, unescapeSqlChars, ih]
    · rw [escapeSqlChars, if_neg hc, unescapeSqlChars_cons_of_ne c _ hc, ih]

/-- Pairedness of quotes ignores a non-quote head character. -/
theorem quotesPaired_cons_of_ne (c : Char) (l : List Char) (h : c ≠ quoteChar) :
    quotesPaired (c :: l) = quotesPaired l := by
  cases l with
  | nil => simp [quotesPaired, h]
  | cons d ds => simp [quotesPaired, h]

/-- Escaping always yields a well-formed SQL literal body. -/
theorem quotesPaired_escape (l : List Char) : quotesPaired (escapeSqlChars l) = true := by
  induction l with
  | nil => rfl
  | cons c cs ih =>
    by_cases hc : c = quoteChar
    · subst hc
      simp [escapeSqlChars, quotesPaired, ih]
    · rw [escapeSqlChars, if_neg hc, quotesPaired_cons_of_ne c _ hc, ih]

/-- A quote-free string is a well-formed SQL literal body. -/
theorem quotesPaired_of_not_mem (l : List Char) (h : quoteChar ∉ l) :
    quotesPaired l = true := by
  induction l with
  | nil => rfl
  | cons c cs ih =>
    have hc : c ≠ quoteChar := fun hcq => h (hcq ▸ List.mem_cons_self c cs)
    rw [quotesPaired_cons_of_ne c cs hc]
    exact ih (fun hm => h (List.mem_cons_of_mem c hm))

/-- Unescaping a quote-free string is the identity. -/
theorem unescapeSqlChars_of_not_mem (l : List Char) (h : quoteChar ∉ l) :
    unescapeSqlChars l = l := by
  induction l with
  | nil => rfl
  | cons c cs ih =>
    have hc : c ≠ quoteChar := fun hcq => h (hcq ▸ List.mem_cons_self c cs)
    rw [unescapeSqlChars_cons_of_ne c cs hc]
    rw [ih (fun hm => h (List.mem_cons_of_mem c hm))]

/-- Logging a conversation turn never touches the Hive Mind table or the
connection flags, so a subsequent Hive Mind query is unaffected. -/
theorem query_hive_mind_log (st : Store) (i r c : String) (n : Nat) :
    query_hive_mind (log_conversation st i r c) n = query_hive_mind st n := by
  unfold log_conversation
  split_ifs <;> rfl

/-- The response half of `handle_gemini_chat`, spelled out. -/
theorem handle_gemini_chat_fst (e : Env) (st : Store) (args : List (String × Arg))
    (rid : RpcId) :
    (handle_gemini_chat e st args rid).1 =
      mkContentResult rid (dumpsResponse (call_gemini e.backend (chatMessage args)
        (compose_system_prompt (argStrD args "system" "")
          (query_hive_mind (log_conversation st e.uuid "user" (chatMessage args)) 3)))) := rfl

/-- `ORDER BY CREATED_AT DESC` output is sorted by decreasing timestamp. -/
theorem sortDesc_sorted (l : List HiveRow) : List.Pairwise descRel (sortDesc l) :=
  List.sorted_insertionSort descRel l

/-- `LIMIT n` returns at most `n` rows. -/
theorem queryRows_length_le (l : List HiveRow) (n : Nat) : (queryRows l n).length ≤ n :=
  List.length_take_le n (sortDesc l)

/-- The limited query output is still sorted by decreasing timestamp. -/
theorem queryRows_pairwise (l : List HiveRow) (n : Nat) :
    List.Pairwise descRel (queryRows l n) :=
  (sortDesc_sorted l).sublist (List.take_sublist n (sortDesc l))

/-- Sorting a three-row table already in decreasing-timestamp order is the
identity. -/
theorem sortDesc_three (a b c : HiveRow) (h1 : a.created_at < b.created_at)
    (h2 : b.created_at < c.created_at) : sortDesc [c, b, a] = [c, b, a] := by
  simp [sortDesc, List.insertionSort, List.orderedInsert, descRel,
    Nat.le_of_lt h1, Nat.le_of_lt h2]

/-- C3: for every decoded request, the response envelope of every dispatch
branch carries the request identifier (the default `1` substituted when the
`id` member is absent) and contains exactly one of a result payload or an
error object, never both and never neither. -/
theorem C3_envelope_identity (e : Env) (st : Store) (req : McpRequest) :
    (mcp_endpoint e st req).1.id = reqId req ∧
    reqId req = req.id.getD (RpcId.num 1) ∧
    (((mcp_endpoint e st req).1.result.isSome = true ∧
      (mcp_endpoint e st req).1.error.isSome = false) ∨
     ((mcp_endpoint e st req).1.result.isSome = false ∧
      (mcp_endpoint e st req).1.error.isSome = true)) := by
  refine ⟨?_, rfl, ?_⟩ <;>
  · unfold mcp_endpoint
    split_ifs <;>
      simp [handle_gemini_chat_fst, mkContentResult, mkToolsResult, mkRpcError]

/-- C4: every `tools/call` of `sm_hive_mind_read` yields a success envelope
(never an RPC-level error) whose text is the formatted recent entries with a
limit defaulting to 5, or one of the sentinel unavailable/failed/no-entries
strings, including when the store is unreachable; the store is not modified. -/
theorem C4_memory_read_soft (e : Env) (st : Store) (args : List (String × Arg))
    (idv : Option RpcId) :
    (mcp_endpoint e st (McpRequest.mk "tools/call" "sm_hive_mind_read" args idv)).1.error = none ∧
    (mcp_endpoint e st (McpRequest.mk "tools/call" "sm_hive_mind_read" args idv)).1.result =
      some (RpcResult.content (query_hive_mind st (argNatD args "limit" 5))) ∧
    (mcp_endpoint e st (McpRequest.mk "tools/call" "sm_hive_mind_read" args idv)).2 = st ∧
    (query_hive_mind st (argNatD args "limit" 5) = "Hive Mind unavailable" ∨
     query_hive_mind st (argNatD args "limit" 5) = "Hive Mind query failed: " ++ st.errMsg ∨
     query_hive_mind st (argNatD args "limit" 5) = "No recent Hive Mind entries" ∨
     query_hive_mind st (argNatD args "limit" 5) =
       String.intercalate "\n" ((queryRows st.hive (argNatD args "limit" 5)).map formatEntry)) := by
  refine ⟨?_, ?_, ?_, ?_⟩
  · simp [mcp_endpoint, mkContentResult]
  · simp [mcp_endpoint, mkContentResult]
  · simp [mcp_endpoint]
  · unfold query_hive_mind
    split_ifs <;> simp

/-- C2 (amended): in the Hive Mind append only the summary and the serialized
details are escaped against the store's single-quote convention (and the
escaped literals are always well-formed); source, category, workstream and
priority are interpolated into the statement verbatim. -/
theorem C2_escaping_amended (source category summary : String) (details : Option String)
    (workstream priority : String) :
    (mkHiveInsert source category summary details workstream priority).summary =
      escapeSql summary ∧
    (mkHiveInsert source category summary details workstream priority).details =
      escapeSql (details.getD "\x7b\x7d") ∧
    quotesPaired (escapeSql summary).data = true ∧
    quotesPaired (escapeSql (details.getD "\x7b\x7d")).data = true ∧
    (mkHiveInsert source category summary details workstream priority).source = source ∧
    (mkHiveInsert source category summary details workstream priority).category = category ∧
    (mkHiveInsert source category summary details workstream priority).workstream = workstream ∧
    (mkHiveInsert source category summary details workstream priority).priority = priority :=
  ⟨rfl, rfl, quotesPaired_escape _, quotesPaired_escape _, rfl, rfl, rfl, rfl⟩

/-- C2 (counterexample): a category value containing a single quote is placed
in the submitted statement verbatim, not escaped — the submitted literal
differs from the escaped form of the caller's value. -/
theorem C2_escaping_counterexample :
    (mkHiveInsert "GEMINI" catQ "note" none "GENERAL" "MEDIUM").category = catQ ∧
    escapeSql catQ ≠ catQ := by
  exact ⟨rfl, by decide⟩

/-- C7: when every generative-backend call fails, `call_gemini` returns the
textual payload `"Error: " ++ e` instead of raising, and the router delivers
it inside a normal success envelope (no RPC-level error). -/
theorem C7_backend_error_soft (e : Env) (st : Store) (args : List (String × Arg))
    (idv : Option RpcId) (hfail : ∀ m s, e.backend.ok m s = false) :
    (∀ m s, call_gemini e.backend m s = "Error: " ++ e.backend.err m s) ∧
    (mcp_endpoint e st (McpRequest.mk "tools/call" "gemini_chat" args idv)).1.error = none ∧
    (mcp_endpoint e st (McpRequest.mk "tools/call" "gemini_chat" args idv)).1.result =
      some (RpcResult.content (dumpsResponse ("Error: " ++ e.backend.err (chatMessage args)
        (compose_system_prompt (argStrD args "system" "")
          (query_hive_mind (log_conversation st e.uuid "user" (chatMessage args)) 3))))) := by
  have hcg : ∀ m s, call_gemini e.backend m s = "Error: " ++ e.backend.err m s := by
    intro m s
    simp [call_gemini, hfail m s]
  refine ⟨hcg, ?_, ?_⟩ <;>
    simp [mcp_endpoint, handle_gemini_chat_fst, mkContentResult, hcg]

/-- C7 witness: the failing backend at a concrete request. -/
theorem C7_backend_error_witness :
    (∀ m s, envDown.backend.ok m s = false) ∧
    ((∀ m s, call_gemini envDown.backend m s = "Error: " ++ envDown.backend.err m s) ∧
     (mcp_endpoint envDown st0 (McpRequest.mk "tools/call" "gemini_chat" [] none)).1.error = none ∧
     (mcp_endpoint envDown st0 (McpRequest.mk "tools/call" "gemini_chat" [] none)).1.result =
       some (RpcResult.content (dumpsResponse ("Error: " ++ envDown.backend.err (chatMessage [])
         (compose_system_prompt (argStrD [] "system" "")
           (query_hive_mind (log_conversation st0 envDown.uuid "user" (chatMessage [])) 3)))))) :=
  ⟨fun _ _ => rfl, C7_backend_error_soft envDown st0 [] none (fun _ _ => rfl)⟩

/-- The boolean returned by `write_to_hive_mind`: true exactly when the store
is connected, execution does not fail environmentally, and the interpolated
statement is well-formed. -/
theorem write_to_hive_mind_fst (st : Store) (now : Nat) (source category summary : String)
    (details : Option String) (workstream priority : String) :
    (write_to_hive_mind st now source category summary details workstream priority).1 =
      (st.connected && st.execOk &&
        insertStatementOk (mkHiveInsert source category summary details workstream priority)) := by
  unfold write_to_hive_mind
  split_ifs <;> simp_all

/-- On a reachable store and a well-formed statement, the append stores the
parsed row in front of the table. -/
theorem write_to_hive_mind_snd (st : Store) (now : Nat) (source category summary : String)
    (details : Option String) (workstream priority : String)
    (hc : st.connected = true) (hx : st.execOk = true)
    (ho : insertStatementOk (mkHiveInsert source category summary details workstream priority) = true) :
    (write_to_hive_mind st now source category summary details workstream priority).2 =
      pushHive st (storedRow now (mkHiveInsert source category summary details workstream priority)) := by
  simp [write_to_hive_mind, hc, hx, ho]

/-- C9: an unknown method, and an unknown tool under `tools/call`, both
produce an error envelope with the fixed code `-32601` and leave the store
untouched (no Hive Mind entry, no conversation turn). -/
theorem C9_unknown_method_tool (e : Env) (st : Store) (req : McpRequest)
    (h : (req.method ≠ "tools/list" ∧ req.method ≠ "tools/call") ∨
         (req.method = "tools/call" ∧
          req.toolName ≠ "gemini_generate_content" ∧ req.toolName ≠ "gemini_chat" ∧
          req.toolName ≠ "gemini_analyze_document" ∧ req.toolName ≠ "sm_hive_mind_read" ∧
          req.toolName ≠ "sm_hive_mind_write")) :
    (mcp_endpoint e st req).1.result = none ∧
    (∃ m, (mcp_endpoint e st req).1.error = some ⟨-32601, m⟩) ∧
    (mcp_endpoint e st req).2 = st := by
  rcases h with ⟨h1, h2⟩ | ⟨h1, h2, h3, h4, h5, h6⟩
  · refine ⟨?_, ⟨"Method not found", ?_⟩, ?_⟩ <;> simp [mcp_endpoint, h1, h2, mkRpcError]
  · refine ⟨?_, ⟨"Unknown tool: " ++ req.toolName, ?_⟩, ?_⟩ <;>
      simp [mcp_endpoint, h1, h2, h3, h4, h5, h6, mkRpcError]

/-- C9 witness: `tools/call` with the unrecognized tool name `"bogus"`. -/
theorem C9_unknown_witness :
    ((("tools/call" : String) ≠ "tools/list" ∧ ("tools/call" : String) ≠ "tools/call") ∨
     (("tools/call" : String) = "tools/call" ∧
      ("bogus" : String) ≠ "gemini_generate_content" ∧ ("bogus" : String) ≠ "gemini_chat" ∧
      ("bogus" : String) ≠ "gemini_analyze_document" ∧ ("bogus" : String) ≠ "sm_hive_mind_read" ∧
      ("bogus" : String) ≠ "sm_hive_mind_write")) ∧
    ((mcp_endpoint env0 st0 (McpRequest.mk "tools/call" "bogus" [] none)).1.result = none ∧
     (∃ m, (mcp_endpoint env0 st0 (McpRequest.mk "tools/call" "bogus" [] none)).1.error =
       some ⟨-32601, m⟩) ∧
     (mcp_endpoint env0 st0 (McpRequest.mk "tools/call" "bogus" [] none)).2 = st0) :=
  ⟨by decide, C9_unknown_method_tool env0 st0 (McpRequest.mk "tools/call" "bogus" [] none) (by decide)⟩

/-- C5 (counterexample): with a reachable store, the success result text of
the memory-write tool is `"Written to Hive Mind"`, which differs from the
`"Written"` the claim states. -/
theorem C5_text_counterexample :
    (writeCall env0 st0 [("category", Arg.str "INSIGHT"), ("summary", Arg.str "test note")]).1 = true ∧
    (mcp_endpoint env0 st0 (McpRequest.mk "tools/call" "sm_hive_mind_write"
      [("category", Arg.str "INSIGHT"), ("summary", Arg.str "test note")] none)).1.result =
      some (RpcResult.content "Written to Hive Mind") ∧
    ("Written to Hive Mind" : String) ≠ "Written" := by
  refine ⟨by decide, by decide, by decide⟩

/-- C5 (amended): every `tools/call` of `sm_hive_mind_write` yields a success
envelope (never an RPC-level error) whose result text is
`"Written to Hive Mind"` when the append commits and `"Failed"` when it
fails; a store failure is reported inside the success envelope; on commit the
appended entry carries the caller's category (default `"INSIGHT"`) and
workstream (default `"GENERAL"`) with source `"GEMINI"`. -/
theorem C5_memory_write_amended (e : Env) (c x : Bool) (err : String)
    (hive : List HiveRow) (convs : List ConvRow) (args : List (String × Arg))
    (idv : Option RpcId) :
    (mcp_endpoint e (Store.mk c x err hive convs)
      (McpRequest.mk "tools/call" "sm_hive_mind_write" args idv)).1.error = none ∧
    (mcp_endpoint e (Store.mk c x err hive convs)
      (McpRequest.mk "tools/call" "sm_hive_mind_write" args idv)).1.result =
      some (RpcResult.content
        (if c && x && insertStatementOk (mkHiveInsert "GEMINI" (argStrD args "category" "INSIGHT")
            (argStrD args "summary" "") none (argStrD args "workstream" "GENERAL") "MEDIUM")
         then "Written to Hive Mind" else "Failed")) ∧
    ((c = false ∨ x = false) →
      (mcp_endpoint e (Store.mk c x err hive convs)
        (McpRequest.mk "tools/call" "sm_hive_mind_write" args idv)).1.result =
        some (RpcResult.content "Failed")) ∧
    (c = true → x = true →
      insertStatementOk (mkHiveInsert "GEMINI" (argStrD args "category" "INSIGHT")
        (argStrD args "summary" "") none (argStrD args "workstream" "GENERAL") "MEDIUM") = true →
      (mcp_endpoint e (Store.mk c x err hive convs)
        (McpRequest.mk "tools/call" "sm_hive_mind_write" args idv)).2.hive =
        storedRow e.now (mkHiveInsert "GEMINI" (argStrD args "category" "INSIGHT")
          (argStrD args "summary" "") none (argStrD args "workstream" "GENERAL") "MEDIUM") :: hive) := by
  refine ⟨?_, ?_, ?_, ?_⟩
  · simp [mcp_endpoint, mkContentResult]
  · simp [mcp_endpoint, mkContentResult, writeCall, write_to_hive_mind_fst]
  · intro h
    rcases h with hc | hc <;>
      simp [mcp_endpoint, mkContentResult, writeCall, write_to_hive_mind_fst, hc]
  · intro hc hx ho
    simp [mcp_endpoint, writeCall,
      write_to_hive_mind_snd (Store.mk c x err hive convs) e.now "GEMINI"
        (argStrD args "category" "INSIGHT") (argStrD args "summary" "") none
        (argStrD args "workstream" "GENERAL") "MEDIUM" hc hx ho, pushHive]

/-- C5 witness: a committed write at a concrete request. -/
theorem C5_memory_write_witness :
    ((mcp_endpoint env0 (Store.mk true true "" [] [])
      (McpRequest.mk "tools/call" "sm_hive_mind_write"
        [("category", Arg.str "INSIGHT"), ("summary", Arg.str "test note")] none)).1.error = none ∧
     (mcp_endpoint env0 (Store.mk true true "" [] [])
      (McpRequest.mk "tools/call" "sm_hive_mind_write"
        [("category", Arg.str "INSIGHT"), ("summary", Arg.str "test note")] none)).1.result =
      some (RpcResult.content
        (if true && true && insertStatementOk (mkHiveInsert "GEMINI"
            (argStrD [("category", Arg.str "INSIGHT"), ("summary", Arg.str "test note")] "category" "INSIGHT")
            (argStrD [("category", Arg.str "INSIGHT"), ("summary", Arg.str "test note")] "summary" "") none
            (argStrD [("category", Arg.str "INSIGHT"), ("summary", Arg.str "test note")] "workstream" "GENERAL") "MEDIUM")
         then "Written to Hive Mind" else "Failed")) ∧
     ((true = false ∨ true = false) →
      (mcp_endpoint env0 (Store.mk true true "" [] [])
        (McpRequest.mk "tools/call" "sm_hive_mind_write"
          [("category", Arg.str "INSIGHT"), ("summary", Arg.str "test note")] none)).1.result =
        some (RpcResult.content "Failed")) ∧
     (true = true → true = true →
      insertStatementOk (mkHiveInsert "GEMINI"
        (argStrD [("category", Arg.str "INSIGHT"), ("summary", Arg.str "test note")] "category" "INSIGHT")
        (argStrD [("category", Arg.str "INSIGHT"), ("summary", Arg.str "test note")] "summary" "") none
        (argStrD [("category", Arg.str "INSIGHT"), ("summary", Arg.str "test note")] "workstream" "GENERAL") "MEDIUM") = true →
      (mcp_endpoint env0 (Store.mk true true "" [] [])
        (McpRequest.mk "tools/call" "sm_hive_mind_write"
          [("category", Arg.str "INSIGHT"), ("summary", Arg.str "test note")] none)).2.hive =
        storedRow env0.now (mkHiveInsert "GEMINI"
          (argStrD [("category", Arg.str "INSIGHT"), ("summary", Arg.str "test note")] "category" "INSIGHT")
          (argStrD [("category", Arg.str "INSIGHT"), ("summary", Arg.str "test note")] "summary" "") none
          (argStrD [("category", Arg.str "INSIGHT"), ("summary", Arg.str "test note")] "workstream" "GENERAL") "MEDIUM") :: [])) :=
  C5_memory_write_amended env0 true true "" [] []
    [("category", Arg.str "INSIGHT"), ("summary", Arg.str "test note")] none

/-- C8: a Hive Mind query returns at most `limit` entries, ordered by
creation timestamp descending; with entries written at times `t1 < t2 < t3`
a query with limit 2 returns exactly the `t3` and `t2` entries in that
order. -/
theorem C8_query_ordering (st : Store) (limit : Nat) (err : String) (convs : List ConvRow)
    (a b c : HiveRow) (h1 : a.created_at < b.created_at) (h2 : b.created_at < c.created_at) :
    (queryRows st.hive limit).length ≤ limit ∧
    List.Pairwise descRel (queryRows st.hive limit) ∧
    queryRows [c, b, a] 2 = [c, b] ∧
    query_hive_mind (Store.mk true true err [c, b, a] convs) 2 =
      formatEntry c ++ "\n" ++ formatEntry b := by
  refine ⟨queryRows_length_le _ _, queryRows_pairwise _ _, ?_, ?_⟩
  · simp [queryRows, sortDesc_three a b c h1 h2]
  · simp [query_hive_mind, queryRows, sortDesc_three a b c h1 h2, String.intercalate,
      String.intercalate.go]

/-- C8 witness: three concrete rows written at times 1 < 2 < 3. -/
theorem C8_query_ordering_witness :
    rowT1.created_at < rowT2.created_at ∧ rowT2.created_at < rowT3.created_at ∧
    ((queryRows st0.hive 2).length ≤ 2 ∧
     List.Pairwise descRel (queryRows st0.hive 2) ∧
     queryRows [rowT3, rowT2, rowT1] 2 = [rowT3, rowT2] ∧
     query_hive_mind (Store.mk true true "" [rowT3, rowT2, rowT1] []) 2 =
       formatEntry rowT3 ++ "\n" ++ formatEntry rowT2) :=
  ⟨by decide, by decide,
    C8_query_ordering st0 2 "" [] rowT1 rowT2 rowT3 (by decide) (by decide)⟩

/-- C6: for every chat generation request, the instruction context passed to
the backend is the static identity profile, then (only when the caller
supplied a non-empty custom `system` argument) that addendum under its
heading, then the three most recent memory entries (the constant 3 being
independent of the memory-read limit) each rendered as
`[timestamp] source (category): summary`, newest first, joined by newlines
under its own heading, with a sentinel substituted when no entries exist. -/
theorem C6_context_composition (e : Env) (err : String) (hive : List HiveRow)
    (convs : List ConvRow) (args : List (String × Arg)) (idv : Option RpcId) :
    (mcp_endpoint e (Store.mk true true err hive convs)
      (McpRequest.mk "tools/call" "gemini_chat" args idv)).1 =
      mkContentResult (reqId (McpRequest.mk "tools/call" "gemini_chat" args idv))
        (dumpsResponse (call_gemini e.backend (chatMessage args)
          (compose_system_prompt (argStrD args "system" "")
            (query_hive_mind (log_conversation (Store.mk true true err hive convs)
              e.uuid "user" (chatMessage args)) 3)))) ∧
    (∀ cs hc, compose_system_prompt cs hc =
      SOVEREIGN_MIND_SYSTEM_PROMPT ++
      (if cs = "" then "" else "\n\n# ADDITIONAL INSTRUCTIONS\n" ++ cs) ++
      ("\n\n# RECENT HIVE MIND CONTEXT\n" ++ hc)) ∧
    query_hive_mind (log_conversation (Store.mk true true err hive convs)
        e.uuid "user" (chatMessage args)) 3 =
      (if (queryRows hive 3).isEmpty then "No recent Hive Mind entries"
       else String.intercalate "\n" ((queryRows hive 3).map formatEntry)) ∧
    (queryRows hive 3).length ≤ 3 ∧
    List.Pairwise descRel (queryRows hive 3) ∧
    (∀ r, formatEntry r =
      "[" ++ toString r.created_at ++ "] " ++ r.source ++ " (" ++ r.category ++ "): "
        ++ r.summary) := by
  refine ⟨?_, ?_, ?_, queryRows_length_le _ _, queryRows_pairwise _ _, fun r => rfl⟩
  · simp [mcp_endpoint, handle_gemini_chat_fst]
  · intro cs hc
    unfold compose_system_prompt
    split_ifs with h <;>
      (apply String.ext; simp [String.data_append, List.append_assoc])
  · rw [query_hive_mind_log]
    simp [query_hive_mind, queryRows]

/-- C10: the memory-write tool stores source `"GEMINI"`, priority `"MEDIUM"`
and the empty details document regardless of caller arguments; a missing
category argument defaults to `"INSIGHT"`, a missing summary to the empty
string, and the request is never rejected for missing arguments. -/
theorem C10_write_fixed_fields (e : Env) (err : String) (hive : List HiveRow)
    (convs : List ConvRow) (args : List (String × Arg)) (idv : Option RpcId) :
    (mcp_endpoint e (Store.mk true true err hive convs)
      (McpRequest.mk "tools/call" "sm_hive_mind_write" args idv)).1.error = none ∧
    ((mcp_endpoint e (Store.mk true true err hive convs)
      (McpRequest.mk "tools/call" "sm_hive_mind_write" args idv)).1.result).isSome = true ∧
    (writeIns args).source = "GEMINI" ∧
    (writeIns args).priority = "MEDIUM" ∧
    (writeIns args).details = "\x7b\x7d" ∧
    (storedRow e.now (writeIns args)).source = "GEMINI" ∧
    (storedRow e.now (writeIns args)).priority = "MEDIUM" ∧
    (storedRow e.now (writeIns args)).details = "\x7b\x7d" ∧
    (lookupArg args "category" = none → (storedRow e.now (writeIns args)).category = "INSIGHT") ∧
    (lookupArg args "summary" = none → (storedRow e.now (writeIns args)).summary = "") ∧
    (insertStatementOk (writeIns args) = true →
      (mcp_endpoint e (Store.mk true true err hive convs)
        (McpRequest.mk "tools/call" "sm_hive_mind_write" args idv)).2.hive =
        storedRow e.now (writeIns args) :: hive) := by
  refine ⟨?_, ?_, rfl, rfl, ?_, ?_, ?_, ?_, ?_, ?_, ?_⟩
  · simp [mcp_endpoint, mkContentResult]
  · simp [mcp_endpoint, mkContentResult]
  · simp only [writeIns, mkHiveInsert]
    decide
  · simp only [writeIns, mkHiveInsert, storedRow]
    decide
  · simp only [writeIns, mkHiveInsert, storedRow]
    decide
  · simp only [writeIns, mkHiveInsert, storedRow]
    decide
  · intro h
    simp only [writeIns, argStrD, h, storedRow, mkHiveInsert]
    decide
  · intro h
    simp only [writeIns, argStrD, h, storedRow, mkHiveInsert]
    decide
  · intro ho
    simp [mcp_endpoint, writeCall,
      write_to_hive_mind_snd (Store.mk true true err hive convs) e.now "GEMINI"
        (argStrD args "category" "INSIGHT") (argStrD args "summary" "") none
        (argStrD args "workstream" "GENERAL") "MEDIUM" rfl rfl ho, pushHive, writeIns]

/-- C10 witness: a write with no arguments at all still succeeds, with the
fixed source, priority, details, and the defaulted category and summary. -/
theorem C10_write_fixed_fields_witness :
    ((mcp_endpoint env0 (Store.mk true true "" [] [])
      (McpRequest.mk "tools/call" "sm_hive_mind_write" [] none)).1.error = none ∧
     ((mcp_endpoint env0 (Store.mk true true "" [] [])
      (McpRequest.mk "tools/call" "sm_hive_mind_write" [] none)).1.result).isSome = true ∧
     (writeIns []).source = "GEMINI" ∧
     (writeIns []).priority = "MEDIUM" ∧
     (writeIns []).details = "\x7b\x7d" ∧
     (storedRow env0.now (writeIns [])).source = "GEMINI" ∧
     (storedRow env0.now (writeIns [])).priority = "MEDIUM" ∧
     (storedRow env0.now (writeIns [])).details = "\x7b\x7d" ∧
     (lookupArg [] "category" = none → (storedRow env0.now (writeIns [])).category = "INSIGHT") ∧
     (lookupArg [] "summary" = none → (storedRow env0.now (writeIns [])).summary = "") ∧
     (insertStatementOk (writeIns []) = true →
      (mcp_endpoint env0 (Store.mk true true "" [] [])
        (McpRequest.mk "tools/call" "sm_hive_mind_write" [] none)).2.hive =
        storedRow env0.now (writeIns []) :: [])) :=
  C10_write_fixed_fields env0 "" [] [] [] none

/-- C1 (counterexample): a 2001-character summary is appended without
truncation — the write succeeds and the stored summary keeps all 2001
characters, so it is not the 2000-character prefix. -/
theorem C1_truncation_counterexample :
    (write_to_hive_mind st0 5 "GEMINI" "INSIGHT" longSummary none "GENERAL" "MEDIUM").1 = true ∧
    (write_to_hive_mind st0 5 "GEMINI" "INSIGHT" longSummary none "GENERAL" "MEDIUM").2.hive =
      [HiveRow.mk 5 "GEMINI" "INSIGHT" "GENERAL" longSummary "\x7b\x7d" "MEDIUM"] ∧
    longSummary.data.length = 2001 ∧
    longSummary ≠ String.mk (longSummary.data.take 2000) := by
  have hps : quotesPaired (escapeSql longSummary).data = true :=
    quotesPaired_escape longSummary.data
  have hok : insertStatementOk
      (mkHiveInsert "GEMINI" "INSIGHT" longSummary none "GENERAL" "MEDIUM") = true := by
    simp only [insertStatementOk, mkHiveInsert, hps]
    decide
  have hsum : unescapeSql (escapeSql longSummary) = longSummary := by
    show String.mk (unescapeSqlChars (escapeSqlChars longSummary.data)) = longSummary
    rw [unescape_escape]
  have hlen : longSummary.data.length = 2001 := List.length_replicate 2001 _
  have hrow : storedRow 5 (mkHiveInsert "GEMINI" "INSIGHT" longSummary none "GENERAL" "MEDIUM") =
      HiveRow.mk 5 "GEMINI" "INSIGHT" "GENERAL" longSummary "\x7b\x7d" "MEDIUM" := by
    simp only [storedRow, mkHiveInsert, HiveRow.mk.injEq]
    exact ⟨trivial, by decide, by decide, by decide, hsum, by decide, by decide⟩
  refine ⟨?_, ?_, hlen, ?_⟩
  · rw [write_to_hive_mind_fst, hok]
    rfl
  · rw [write_to_hive_mind_snd st0 5 "GEMINI" "INSIGHT" longSummary none "GENERAL" "MEDIUM"
      rfl rfl hok]
    show storedRow 5 (mkHiveInsert "GEMINI" "INSIGHT" longSummary none "GENERAL" "MEDIUM")
      :: ([] : List HiveRow) =
      [HiveRow.mk 5 "GEMINI" "INSIGHT" "GENERAL" longSummary "\x7b\x7d" "MEDIUM"]
    rw [hrow]
  · intro hcontra
    have hTlen : (longSummary.data.take 2000).length = 2000 := by
      show ((List.replicate 2001 'a').take 2000).length = 2000
      rw [List.take_replicate, List.length_replicate]
      omega
    have h4 : longSummary.data.length = (longSummary.data.take 2000).length :=
      congrArg (fun s : String => s.data.length) hcontra
    rw [hlen, hTlen] at h4
    exact absurd h4 (by decide)

/-- C1 (amended): the Hive Mind append never truncates — the submitted
summary literal is the full escaped summary and the stored summary equals the
caller's summary at any length; the conversation append truncates the escaped
content to its first 4000 characters, which for quote-free content is exactly
the 4000-character prefix; neither write fails because of length. -/
theorem C1_truncation_amended (err : String) (hive : List HiveRow) (convs : List ConvRow)
    (now : Nat) (source category workstream priority summary : String)
    (cid role content : String)
    (hs : quoteChar ∉ source.data) (hc : quoteChar ∉ category.data)
    (hw : quoteChar ∉ workstream.data) (hp : quoteChar ∉ priority.data)
    (hid : quoteChar ∉ cid.data) (hrole : quoteChar ∉ role.data)
    (hcontent : quoteChar ∉ content.data) :
    (mkHiveInsert source category summary none workstream priority).summary =
      escapeSql summary ∧
    (write_to_hive_mind (Store.mk true true err hive convs) now source category summary
      none workstream priority).1 = true ∧
    (write_to_hive_mind (Store.mk true true err hive convs) now source category summary
      none workstream priority).2.hive =
      storedRow now (mkHiveInsert source category summary none workstream priority) :: hive ∧
    (storedRow now (mkHiveInsert source category summary none workstream priority)).summary =
      summary ∧
    (mkConvInsert cid role content).content =
      String.mk ((escapeSqlChars content.data).take 4000) ∧
    (mkConvInsert cid role content).content = String.mk (content.data.take 4000) ∧
    (log_conversation (Store.mk true true err hive convs) cid role content).conversations =
      ConvRow.mk cid role (String.mk (content.data.take 4000)) GEMINI_MODEL :: convs := by
  have hok : insertStatementOk (mkHiveInsert source category summary none workstream priority) = true := by
    simp [insertStatementOk, mkHiveInsert, escapeSql, quotesPaired_escape,
      quotesPaired_of_not_mem source.data hs, quotesPaired_of_not_mem category.data hc,
      quotesPaired_of_not_mem workstream.data hw, quotesPaired_of_not_mem priority.data hp]
  have htrunc : (escapeSqlChars content.data).take 4000 = content.data.take 4000 := by
    rw [escapeSqlChars_of_not_mem content.data hcontent]
  have htq : quoteChar ∉ content.data.take 4000 :=
    fun hm => hcontent (List.take_subset 4000 content.data hm)
  have hconvok : convStatementOk (mkConvInsert cid role content) = true := by
    simp [convStatementOk, mkConvInsert, htrunc,
      quotesPaired_of_not_mem cid.data hid, quotesPaired_of_not_mem role.data hrole,
      quotesPaired_of_not_mem _ htq]
    decide
  refine ⟨rfl, ?_, ?_, ?_, rfl, ?_, ?_⟩
  · rw [write_to_hive_mind_fst, hok]
    rfl
  · rw [write_to_hive_mind_snd (Store.mk true true err hive convs) now source category
      summary none workstream priority rfl rfl hok]
    rfl
  · simp [storedRow, mkHiveInsert, unescapeSql, escapeSql, unescape_escape]
  · simp [mkConvInsert, htrunc]
  · have hrowc : ConvRow.mk (unescapeSql (mkConvInsert cid role content).conversation_id)
        (unescapeSql (mkConvInsert cid role content).role)
        (unescapeSql (mkConvInsert cid role content).content)
        (unescapeSql (mkConvInsert cid role content).model) =
        ConvRow.mk cid role (String.mk (content.data.take 4000)) GEMINI_MODEL := by
      simp only [mkConvInsert, ConvRow.mk.injEq]
      refine ⟨?_, ?_, ?_, by decide⟩
      · show String.mk (unescapeSqlChars cid.data) = cid
        rw [unescapeSqlChars_of_not_mem cid.data hid]
      · show String.mk (unescapeSqlChars role.data) = role
        rw [unescapeSqlChars_of_not_mem role.data hrole]
      · show String.mk (unescapeSqlChars ((escapeSqlChars content.data).take 4000)) =
          String.mk (content.data.take 4000)
        rw [htrunc, unescapeSqlChars_of_not_mem _ htq]
    have hlog : log_conversation (Store.mk true true err hive convs) cid role content =
        pushConv (Store.mk true true err hive convs)
          (ConvRow.mk cid role (String.mk (content.data.take 4000)) GEMINI_MODEL) := by
      rw [log_conversation, hrowc]
      simp [hconvok]
    rw [hlog]
    rfl

/-- C1 witness: concrete quote-free inputs. -/
theorem C1_truncation_amended_witness :
    quoteChar ∉ ("S" : String).data ∧ quoteChar ∉ ("C" : String).data ∧
    quoteChar ∉ ("W" : String).data ∧ quoteChar ∉ ("P" : String).data ∧
    quoteChar ∉ ("id" : String).data ∧ quoteChar ∉ ("user" : String).data ∧
    quoteChar ∉ ("hello" : String).data ∧
    ((mkHiveInsert "S" "C" "sum" none "W" "P").summary = escapeSql "sum" ∧
     (write_to_hive_mind (Store.mk true true "" [] []) 0 "S" "C" "sum" none "W" "P").1 = true ∧
     (write_to_hive_mind (Store.mk true true "" [] []) 0 "S" "C" "sum" none "W" "P").2.hive =
       storedRow 0 (mkHiveInsert "S" "C" "sum" none "W" "P") :: [] ∧
     (storedRow 0 (mkHiveInsert "S" "C" "sum" none "W" "P")).summary = "sum" ∧
     (mkConvInsert "id" "user" "hello").content =
       String.mk ((escapeSqlChars ("hello" : String).data).take 4000) ∧
     (mkConvInsert "id" "user" "hello").content = String.mk (("hello" : String).data.take 4000) ∧
     (log_conversation (Store.mk true true "" [] []) "id" "user" "hello").conversations =
       ConvRow.mk "id" "user" (String.mk (("hello" : String).data.take 4000)) GEMINI_MODEL :: []) :=
  ⟨by decide, by decide, by decide, by decide, by decide, by decide, by decide,
    C1_truncation_amended "" [] [] 0 "S" "C" "W" "P" "sum" "id" "user" "hello"
      (by decide) (by decide) (by decide) (by decide) (by decide) (by decide) (by decide)⟩

end GeminiMcp
